import Mathlib

/-!
Shallow embedding of the Skia renderer of `orbitrs/orbitui`
(`src/renderer/skia.rs`), together with proofs of the specified
properties of initialization, the transform stack, the renderer
lifecycle (`init` / `render` / `flush` / `cleanup`), the error
taxonomy, and the circle-drawing primitives.

External `skia_safe` library calls that can fail (interface
acquisition, GPU-context creation, surface creation) are modelled by
an explicit environment `GlEnv` of `Option`-returning functions; the
drawable surface is modelled by the log of drawing commands issued to
its canvas; the 4x4 matrix type `M44` is modelled as a 4x4 rational
matrix.  The `f32` sine of `draw_animated_circle` is idealized as
`Real.sin`, and the Rust saturating float-to-`u8` cast `as u8` is
modelled exactly (truncation toward zero, clamped to `[0, 255]`).
-/

namespace Orbit

/-- Handle to a native GL interface (`skia_safe::gpu::gl::Interface`);
kept abstract as a tagged handle. -/
structure Interface where
  id : Nat
deriving DecidableEq, Repr

/-- Handle to a Skia GPU context (`skia_safe::gpu::DirectContext`);
kept abstract as a tagged handle. -/
structure DirectContext where
  id : Nat
deriving DecidableEq, Repr

/-- Model of `skia_safe::gpu::Protected`. -/
inductive Protected where
  | yes
  | no
deriving DecidableEq, Repr

/-- Model of `skia_safe::gpu::gl::FramebufferInfo`: framebuffer id, pixel
format, protection flag.  The source field `protected` is a reserved
word in Lean and is named `protected_flag` here. -/
structure FramebufferInfo where
  fboid : Nat
  format : Nat
  protected_flag : Protected
deriving DecidableEq, Repr

/-- Model of `skia_safe::gpu::BackendRenderTarget`, as produced by
`BackendRenderTarget::new_gl((width, height), samples, stencil_bits,
fb_info)`: pure data construction, cannot fail. -/
structure BackendRenderTarget where
  dims : Int × Int
  sample_count : Nat
  stencil_bits : Nat
  fb_info : FramebufferInfo
deriving DecidableEq, Repr

/-- Model of `BackendRenderTarget::new_gl`. -/
def BackendRenderTarget.new_gl (dims : Int × Int) (sample_count stencil_bits : Nat)
    (fb_info : FramebufferInfo) : BackendRenderTarget :=
  ⟨dims, sample_count, stencil_bits, fb_info⟩

/-- Model of `skia_safe::gpu::SurfaceOrigin`. -/
inductive SurfaceOrigin where
  | topLeft
  | bottomLeft
deriving DecidableEq, Repr

/-- Model of `skia_safe::ColorType` (only the variant used by the renderer). -/
inductive ColorType where
  | rgba8888
deriving DecidableEq, Repr

/-- Model of `skia_safe::Color`: an ARGB color with 8-bit channels. -/
structure Color where
  a : Nat
  r : Nat
  g : Nat
  b : Nat
deriving DecidableEq, Repr

/-- Model of `Color::from_argb`. -/
def Color.from_argb (a r g b : Nat) : Color := ⟨a, r, g, b⟩

/-- Model of `Color::WHITE`. -/
def Color.white : Color := ⟨255, 255, 255, 255⟩

/-- Model of `skia_safe::Color4f`: a color with rational (idealized `f32`)
channels. -/
structure Color4f where
  r : ℚ
  g : ℚ
  b : ℚ
  a : ℚ
deriving DecidableEq, Repr

/-- The color stored in a `Paint`: either the float color it was
constructed with, or an 8-bit color installed by `set_color`. -/
inductive PaintColor where
  | floatColor (c : Color4f)
  | byteColor (c : Color)
deriving DecidableEq, Repr

/-- Model of `skia_safe::PaintStyle` (only the variants relevant here). -/
inductive PaintStyle where
  | fill
  | stroke
deriving DecidableEq, Repr

/-- Model of `skia_safe::Paint`: color, anti-alias flag, style. -/
structure Paint where
  color : PaintColor
  anti_alias : Bool
  style : PaintStyle
deriving DecidableEq, Repr

/-- Model of `Paint::new(color4f, None)`: a paint with the given color,
anti-aliasing off, fill style (Skia defaults). -/
def Paint.new (c : Color4f) : Paint :=
  ⟨.floatColor c, false, .fill⟩

/-- Model of `Paint::set_anti_alias`. -/
def Paint.set_anti_alias (p : Paint) (aa : Bool) : Paint :=
  { p with anti_alias := aa }

/-- Model of `Paint::set_style`. -/
def Paint.set_style (p : Paint) (s : PaintStyle) : Paint :=
  { p with style := s }

/-- Model of `Paint::set_color`. -/
def Paint.set_color (p : Paint) (c : Color) : Paint :=
  { p with color := .byteColor c }

/-- A drawing command issued to a surface's canvas, recording the
observable effect of the two canvas operations the renderer uses. -/
inductive DrawCmd where
  | clear (c : Color)
  | drawCircle (cx cy radius : ℚ) (p : Paint)
deriving DecidableEq, Repr

/-- Model of `skia_safe::Surface`: a tagged handle together with the log of
drawing commands issued to its canvas. -/
structure Surface where
  id : Nat
  cmds : List DrawCmd
deriving DecidableEq, Repr

/-- Model of `canvas.clear(color)` on a surface's canvas. -/
def Surface.clear (s : Surface) (c : Color) : Surface :=
  { s with cmds := s.cmds ++ [DrawCmd.clear c] }

/-- Model of `canvas.draw_circle(point, radius, paint)` on a surface's canvas. -/
def Surface.draw_circle (s : Surface) (cx cy radius : ℚ) (p : Paint) : Surface :=
  { s with cmds := s.cmds ++ [DrawCmd.drawCircle cx cy radius p] }

/-- An immutable capture of a surface's pixel content
(`skia_safe::Image`), modelled by the command log at capture time. -/
structure Image where
  cmds : List DrawCmd
deriving DecidableEq, Repr

/-- Model of `Surface::image_snapshot`: finalizes pending drawing; observably
it leaves the surface unchanged and yields a capture of its content. -/
def Surface.image_snapshot (s : Surface) : Image :=
  ⟨s.cmds⟩

/-- Model of `skia_safe::M44`: a 4x4 matrix with rational (idealized `f32`)
entries. -/
abbrev M44 := Matrix (Fin 4) (Fin 4) ℚ

/-- Model of `M44::new_identity`. -/
def M44.new_identity : M44 := 1

/-- Model of `M44::pre_concat`: `a.pre_concat(b)` multiplies `b` on the right
of `a` (the pushed transform is applied in the current space). -/
def M44.pre_concat (a b : M44) : M44 := a * b

/-- The environment of fallible `skia_safe` constructors used by
`init_skia`; each models an external library call that may fail. -/
structure GlEnv where
  interface_new_native : Option Interface
  direct_context_new_gl : Interface → Option DirectContext
  surface_from_backend_render_target :
    DirectContext → BackendRenderTarget → SurfaceOrigin → ColorType → Option Surface

/-- Model of `RendererError` (`src/renderer/skia.rs`): the renderer error
taxonomy. -/
inductive RendererError where
  | SkiaError (msg : String)
  | GlError (msg : String)
  | InitError (msg : String)
  | GeneralError (msg : String)
deriving DecidableEq, Repr

/-- The `fmt::Display` implementation for `RendererError`. -/
def RendererError.display : RendererError → String
  | .SkiaError msg => "Skia error: " ++ msg
  | .GlError msg => "OpenGL error: " ++ msg
  | .InitError msg => "Initialization error: " ++ msg
  | .GeneralError msg => "Renderer error: " ++ msg

/-- Model of `impl From<String> for RendererError`. -/
def RendererError.from_string (error : String) : RendererError :=
  .GeneralError error

/-- Model of `std::io::Error`, modelled by its display text (`to_string`). -/
structure IoError where
  message : String
deriving DecidableEq, Repr

/-- Model of `impl From<std::io::Error> for RendererError`. -/
def RendererError.from_io_error (error : IoError) : RendererError :=
  .GeneralError error.message

/-- Model of `RendererResult = Result<(), Box<dyn Error + Send>>`; every error
the renderer actually boxes is a `RendererError`, so the result is
modelled as `Except RendererError Unit`. -/
abbrev RendererResult := Except RendererError Unit

/-- Modelled from the spec: the framework's umbrella error type
(`crate::Error`, declared outside `src/`); only its `Renderer` variant
(carrying a formatted message) is used by this module. -/
inductive Error where
  | Renderer (msg : String)
deriving DecidableEq, Repr

/-- Modelled from the spec: an opaque scene-tree node
(`crate::component::Node`, declared outside `src/`); the Skia
renderer only receives it and never inspects it. -/
structure Node where
  id : Nat
deriving DecidableEq, Repr

/-- Modelled from the spec: the ephemeral per-frame render context
(`crate::renderer::RenderContext`, declared outside `src/`); the Skia
renderer ignores it. -/
structure RenderContext where
  id : Nat
deriving DecidableEq, Repr

/-- Model of `SkiaState`: the renderer state bundle. -/
structure SkiaState where
  gr_context : DirectContext
  surface : Surface
  transform_stack : List M44
  width : Int
  height : Int

/-- Model of `SkiaRenderer`: optional state, absent until initialization. -/
structure SkiaRenderer where
  state : Option SkiaState

/-- Model of `SkiaRenderer::new`. -/
def SkiaRenderer.new : SkiaRenderer := ⟨none⟩

/-- The framebuffer info built by `init_skia`: default framebuffer,
`GL_RGBA8` (`0x8058`), unprotected. -/
def init_fb_info : FramebufferInfo :=
  ⟨0, 0x8058, Protected.no⟩

/-- Model of `SkiaRenderer::init_skia(width, height)`: acquire the native GL
interface, create the GPU context, build the framebuffer info and
backend render target (pure data), create the surface, and only then
install the new state (dimensions as given, transform stack seeded
with the identity).  Each failing step short-circuits with a
classified error and leaves the renderer untouched. -/
def SkiaRenderer.init_skia (env : GlEnv) (r : SkiaRenderer) (width height : Int) :
    SkiaRenderer × RendererResult :=
  match env.interface_new_native with
  | none => (r, .error (RendererError.GlError "Failed to create GL interface"))
  | some interface =>
    match env.direct_context_new_gl interface with
    | none => (r, .error (RendererError.SkiaError "Failed to create GPU context"))
    | some gr_context =>
      match env.surface_from_backend_render_target gr_context
          (BackendRenderTarget.new_gl (width, height) 1 8 init_fb_info)
          SurfaceOrigin.bottomLeft ColorType.rgba8888 with
      | none => (r, .error (RendererError.SkiaError "Failed to create surface"))
      | some surface =>
        (⟨some ⟨gr_context, surface, [M44.new_identity], width, height⟩⟩, .ok ())

/-- Model of `SkiaRenderer::push_transform`: compose the given transform onto
the current top (identity if the stack is empty) and push the result;
no-op when the state is absent. -/
def SkiaRenderer.push_transform (r : SkiaRenderer) (transform : M44) : SkiaRenderer :=
  match r.state with
  | none => r
  | some state =>
    let current := state.transform_stack.getLast?.getD M44.new_identity
    let combined := current.pre_concat transform
    ⟨some { state with transform_stack := state.transform_stack ++ [combined] }⟩

/-- Model of `SkiaRenderer::pop_transform`: remove the top of the stack only
when more than one element remains; no-op otherwise. -/
def SkiaRenderer.pop_transform (r : SkiaRenderer) : SkiaRenderer :=
  match r.state with
  | none => r
  | some state =>
    if 1 < state.transform_stack.length then
      ⟨some { state with transform_stack := state.transform_stack.dropLast }⟩
    else r

/-- Model of `SkiaRenderer::current_transform`: the top of the stack, or the
identity when the state is absent or the stack is empty. -/
def SkiaRenderer.current_transform (r : SkiaRenderer) : M44 :=
  ((r.state.bind fun state => state.transform_stack.getLast?).getD M44.new_identity)

/-- Push a list of transforms in order (left to right). -/
def SkiaRenderer.push_many (r : SkiaRenderer) (ts : List M44) : SkiaRenderer :=
  ts.foldl (fun acc t => acc.push_transform t) r

/-- Pop `n` times. -/
def SkiaRenderer.pop_many (r : SkiaRenderer) : Nat → SkiaRenderer
  | 0 => r
  | n + 1 => (r.pop_transform).pop_many n

/-- Model of `SkiaRenderer::draw_test_circle`: fails with a `GeneralError` when
the state is absent; otherwise draws an anti-aliased, fill-style
circle of float color (0.3, 0.5, 0.8, 1.0) centered at half the
dimensions with radius a quarter of the smaller dimension. -/
def SkiaRenderer.draw_test_circle (r : SkiaRenderer) : SkiaRenderer × RendererResult :=
  match r.state with
  | none => (r, .error (RendererError.GeneralError "Renderer not initialized"))
  | some state =>
    let paint := ((Paint.new ⟨3/10, 1/2, 4/5, 1⟩).set_anti_alias true).set_style .fill
    let center_x : ℚ := (state.width : ℚ) / 2
    let center_y : ℚ := (state.height : ℚ) / 2
    let radius : ℚ := ((min state.width state.height : Int) : ℚ) / 4
    let surface := state.surface.draw_circle center_x center_y radius paint
    (⟨some { state with surface := surface }⟩, .ok ())

/-- The red channel of the animated circle: `time.sin() * 0.5 + 0.5`. -/
noncomputable def rChannel (time : ℝ) : ℝ := Real.sin time * 0.5 + 0.5

/-- The green channel of the animated circle:
`(time + 2.0).sin() * 0.5 + 0.5`. -/
noncomputable def gChannel (time : ℝ) : ℝ := Real.sin (time + 2) * 0.5 + 0.5

/-- The blue channel of the animated circle:
`(time + 4.0).sin() * 0.5 + 0.5`. -/
noncomputable def bChannel (time : ℝ) : ℝ := Real.sin (time + 4) * 0.5 + 0.5

/-- The Rust saturating cast `x as u8` for a float `x`: truncate
toward zero and clamp to `[0, 255]`; on the arguments that arise here
this equals clamping the floor. -/
noncomputable def floatToU8 (x : ℝ) : ℕ :=
  (max 0 (min 255 ⌊x⌋)).toNat

/-- The ARGB color built by `draw_animated_circle` at a given time:
alpha 255, channels passed through `floatToU8` after scaling by 255. -/
noncomputable def animColor (time : ℝ) : Color :=
  Color.from_argb 255 (floatToU8 (rChannel time * 255))
    (floatToU8 (gChannel time * 255)) (floatToU8 (bChannel time * 255))

/-- Model of `SkiaRenderer::draw_animated_circle(time)`: silently does nothing
when the state is absent (the function returns unit, not a result);
otherwise clears the canvas to white and draws an anti-aliased circle
at (200, 200) with radius 100 in the time-dependent color. -/
noncomputable def SkiaRenderer.draw_animated_circle (r : SkiaRenderer) (time : ℝ) :
    SkiaRenderer :=
  match r.state with
  | none => r
  | some state =>
    let surface := state.surface.clear Color.white
    let paint := (Paint.new ⟨1, 0, 0, 1⟩).set_anti_alias true
    let paint := paint.set_color (animColor time)
    let surface := surface.draw_circle 200 200 100 paint
    ⟨some { state with surface := surface }⟩

/-- Model of `<SkiaRenderer as Renderer>::init`: initialize with default
dimensions 800x600 only when the state is absent; errors are wrapped
into the umbrella error type by formatting. -/
def SkiaRenderer.init (env : GlEnv) (r : SkiaRenderer) : SkiaRenderer × Except Error Unit :=
  if r.state.isNone then
    match r.init_skia env 800 600 with
    | (r1, .ok _) => (r1, .ok ())
    | (r1, .error e) => (r1, .error (.Renderer e.display))
  else (r, .ok ())

/-- Model of `<SkiaRenderer as Renderer>::render`: lazily initialize with
default dimensions 800x600 when the state is absent, then draw the
test circle; errors are wrapped by formatting. -/
def SkiaRenderer.render (env : GlEnv) (r : SkiaRenderer) (_root : Node)
    (_context : RenderContext) : SkiaRenderer × Except Error Unit :=
  let step1 : SkiaRenderer × Except Error Unit :=
    if r.state.isNone then
      match r.init_skia env 800 600 with
      | (r1, .ok _) => (r1, .ok ())
      | (r1, .error e) => (r1, .error (.Renderer e.display))
    else (r, .ok ())
  match step1 with
  | (r1, .error e) => (r1, .error e)
  | (r1, .ok _) =>
    match r1.draw_test_circle with
    | (r2, .ok _) => (r2, .ok ())
    | (r2, .error e) => (r2, .error (.Renderer e.display))

/-- Model of `<SkiaRenderer as Renderer>::flush`: take an image snapshot when
the state is present; succeed either way. -/
def SkiaRenderer.flush (r : SkiaRenderer) : SkiaRenderer × Except Error Unit :=
  match r.state with
  | some state =>
    let _ := state.surface.image_snapshot
    (r, .ok ())
  | none => (r, .ok ())

/-- Model of `<SkiaRenderer as Renderer>::cleanup`: drop the state; always
succeeds. -/
def SkiaRenderer.cleanup (_r : SkiaRenderer) : SkiaRenderer × Except Error Unit :=
  (⟨none⟩, .ok ())

/-- Model of `<SkiaRenderer as Renderer>::name`. -/
def SkiaRenderer.name (_r : SkiaRenderer) : String := "SkiaRenderer"

/-- The stacks produced by successive pushes above a top `c`: each
element composes the next transform onto the previous composite. -/
def mulChain (c : M44) : List M44 → List M44
  | [] => []
  | t :: ts => (c.pre_concat t) :: mulChain (c.pre_concat t) ts

/-- A concrete environment in which every initialization step
succeeds. -/
def envAllOk : GlEnv :=
  ⟨some ⟨0⟩, fun _ => some ⟨1⟩, fun _ _ _ _ => some ⟨2, []⟩⟩

/-- A concrete environment in which the native GL interface cannot be
acquired. -/
def envNoInterface : GlEnv :=
  ⟨none, fun _ => none, fun _ _ _ _ => none⟩

/-- The concrete state produced by a successful default
initialization in `envAllOk`. -/
def testState : SkiaState :=
  ⟨⟨1⟩, ⟨2, []⟩, [M44.new_identity], 800, 600⟩

/-- A concrete initialized renderer. -/
def testRenderer : SkiaRenderer := ⟨some testState⟩

/-- Successful `init_skia` installs exactly the requested dimensions
and a singleton identity transform stack. -/
theorem init_skia_ok (env : GlEnv) (r : SkiaRenderer) (width height : Int)
    (r' : SkiaRenderer) (hsucc : r.init_skia env width height = (r', Except.ok ())) :
    ∃ st, r'.state = some st ∧ st.width = width ∧ st.height = height ∧
      st.transform_stack = [M44.new_identity] := by
  unfold SkiaRenderer.init_skia at hsucc
  split at hsucc
  · simp at hsucc
  · split at hsucc
    · simp at hsucc
    · split at hsucc
      · simp at hsucc
      · have h := congrArg Prod.fst hsucc
        subst h
        exact ⟨_, rfl, rfl, rfl, rfl⟩

/-- Any failing `init_skia` leaves the renderer untouched. -/
theorem init_skia_error_frame (env : GlEnv) (r : SkiaRenderer) (width height : Int)
    (r' : SkiaRenderer) (e : RendererError)
    (herr : r.init_skia env width height = (r', Except.error e)) : r' = r := by
  unfold SkiaRenderer.init_skia at herr
  split at herr
  · exact (congrArg Prod.fst herr).symm
  · split at herr
    · exact (congrArg Prod.fst herr).symm
    · split at herr
      · exact (congrArg Prod.fst herr).symm
      · simp at herr

/-- Model of `draw_test_circle` on a present state succeeds and only appends
to the surface command log, preserving the other fields. -/
theorem draw_test_circle_ok (r : SkiaRenderer) (st : SkiaState)
    (h : r.state = some st) :
    (r.draw_test_circle).2 = Except.ok () ∧
    ∃ st', (r.draw_test_circle).1.state = some st' ∧
      st'.width = st.width ∧ st'.height = st.height ∧
      st'.transform_stack = st.transform_stack := by
  unfold SkiaRenderer.draw_test_circle
  rw [h]
  exact ⟨rfl, _, rfl, rfl, rfl, rfl⟩

/-- C1: for every positive width and height, a successful
`init_skia(width, height)` leaves the state present with the recorded
width and height equal to the inputs and the transform stack equal to
the singleton identity. -/
theorem C1_init_skia_success (env : GlEnv) (r : SkiaRenderer) (width height : Int)
    (hw : 0 < width) (hh : 0 < height) (r' : SkiaRenderer)
    (hsucc : r.init_skia env width height = (r', Except.ok ())) :
    ∃ st, r'.state = some st ∧ st.width = width ∧ st.height = height ∧
      st.transform_stack = [M44.new_identity] :=
  init_skia_ok env r width height r' hsucc

/-- Witness for C1 at the all-success environment with 800x600. -/
theorem C1_init_skia_success_witness :
    ∃ st, (⟨some ⟨⟨1⟩, ⟨2, []⟩, [M44.new_identity], 800, 600⟩⟩ : SkiaRenderer).state = some st ∧
      st.width = 800 ∧ st.height = 600 ∧ st.transform_stack = [M44.new_identity] :=
  C1_init_skia_success envAllOk SkiaRenderer.new 800 600 (by decide) (by decide)
    ⟨some ⟨⟨1⟩, ⟨2, []⟩, [M44.new_identity], 800, 600⟩⟩ rfl

/-- C2: each failing step of `init_skia` short-circuits with its
classified error, later steps never influence the result, and the
renderer is returned exactly as it was. -/
theorem C2_init_skia_failure (env : GlEnv) (r : SkiaRenderer) (width height : Int) :
    (env.interface_new_native = none →
      r.init_skia env width height =
        (r, Except.error (RendererError.GlError "Failed to create GL interface"))) ∧
    (∀ i, env.interface_new_native = some i → env.direct_context_new_gl i = none →
      r.init_skia env width height =
        (r, Except.error (RendererError.SkiaError "Failed to create GPU context"))) ∧
    (∀ i c, env.interface_new_native = some i → env.direct_context_new_gl i = some c →
      env.surface_from_backend_render_target c
          (BackendRenderTarget.new_gl (width, height) 1 8 init_fb_info)
          SurfaceOrigin.bottomLeft ColorType.rgba8888 = none →
      r.init_skia env width height =
        (r, Except.error (RendererError.SkiaError "Failed to create surface"))) ∧
    (∀ r' e, r.init_skia env width height = (r', Except.error e) → r' = r) := by
  refine ⟨fun h1 => ?_, fun i h1 h2 => ?_, fun i c h1 h2 h3 => ?_,
    fun r' e herr => init_skia_error_frame env r width height r' e herr⟩
  · unfold SkiaRenderer.init_skia; simp only [h1]
  · unfold SkiaRenderer.init_skia; simp only [h1, h2]
  · unfold SkiaRenderer.init_skia; simp only [h1, h2, h3]

/-- Witness for C2 at an environment with no native GL interface. -/
theorem C2_init_skia_failure_witness :
    SkiaRenderer.new.init_skia envNoInterface 800 600 =
      (SkiaRenderer.new,
        Except.error (RendererError.GlError "Failed to create GL interface")) :=
  (C2_init_skia_failure envNoInterface SkiaRenderer.new 800 600).1 rfl

/-- C3: `render` on an uninitialized renderer lazily initializes with
the default dimensions 800x600 and, when that initialization
succeeds, draws and returns success instead of a "not initialized"
error. -/
theorem C3_render_lazy_init (env : GlEnv) (node : Node) (ctx : RenderContext)
    (r r1 : SkiaRenderer) (h : r.state = none)
    (hinit : r.init_skia env 800 600 = (r1, Except.ok ())) :
    (r.render env node ctx).2 = Except.ok () ∧
    ∃ st, (r.render env node ctx).1.state = some st ∧
      st.width = 800 ∧ st.height = 600 := by
  obtain ⟨st1, hst1, hw1, hh1, -⟩ := init_skia_ok env r 800 600 r1 hinit
  have hd := draw_test_circle_ok r1 st1 hst1
  rcases hdt : r1.draw_test_circle with ⟨r2, res2⟩
  rw [hdt] at hd
  cases res2 with
  | error e => simp at hd
  | ok u =>
    cases u
    obtain ⟨-, st2, hst2, hw2, hh2, -⟩ := hd
    unfold SkiaRenderer.render
    simp only [h, Option.isNone_none, if_true, hinit, hdt]
    exact ⟨trivial, st2, hst2, hw2.trans hw1, hh2.trans hh1⟩

/-- Witness for C3 at the all-success environment. -/
theorem C3_render_lazy_init_witness :
    (SkiaRenderer.new.render envAllOk ⟨0⟩ ⟨0⟩).2 = Except.ok () ∧
    ∃ st, (SkiaRenderer.new.render envAllOk ⟨0⟩ ⟨0⟩).1.state = some st ∧
      st.width = 800 ∧ st.height = 600 :=
  C3_render_lazy_init envAllOk ⟨0⟩ ⟨0⟩ SkiaRenderer.new
    ⟨some ⟨⟨1⟩, ⟨2, []⟩, [M44.new_identity], 800, 600⟩⟩ rfl rfl

/-- C4: `pop_transform` removes the top only above depth 1, is a
no-op at depth 1, and both `push_transform` and `pop_transform`
preserve the depth-at-least-1 invariant. -/
theorem C4_pop_transform_depth (r : SkiaRenderer) (st : SkiaState)
    (h : r.state = some st) :
    (st.transform_stack.length = 1 → r.pop_transform = r) ∧
    (1 < st.transform_stack.length → ∃ st', r.pop_transform.state = some st' ∧
      st'.transform_stack = st.transform_stack.dropLast) ∧
    (∀ T, 1 ≤ st.transform_stack.length → ∃ st',
      (r.push_transform T).state = some st' ∧ 1 ≤ st'.transform_stack.length) ∧
    (1 ≤ st.transform_stack.length → ∃ st',
      r.pop_transform.state = some st' ∧ 1 ≤ st'.transform_stack.length) := by
  refine ⟨fun h1 => ?_, fun h1 => ?_, fun T h1 => ?_, fun h1 => ?_⟩
  · unfold SkiaRenderer.pop_transform
    rw [h]
    simp [h1]
  · unfold SkiaRenderer.pop_transform
    rw [h]
    simp only [h1, if_true]
    exact ⟨_, rfl, rfl⟩
  · unfold SkiaRenderer.push_transform
    rw [h]
    refine ⟨_, rfl, ?_⟩
    simp
  · unfold SkiaRenderer.pop_transform
    rw [h]
    by_cases h2 : 1 < st.transform_stack.length
    · simp only [h2, if_true]
      refine ⟨_, rfl, ?_⟩
      simp [List.length_dropLast]
      omega
    · simp only [h2, if_false]
      exact ⟨st, h, h1⟩

/-- Witness for C4 at a freshly initialized renderer. -/
theorem C4_pop_transform_depth_witness :
    testRenderer.pop_transform = testRenderer ∧
    ∃ st', (testRenderer.push_transform M44.new_identity).state = some st' ∧
      1 ≤ st'.transform_stack.length :=
  ⟨(C4_pop_transform_depth testRenderer testState rfl).1 rfl,
   (C4_pop_transform_depth testRenderer testState rfl).2.2.1 M44.new_identity (by decide)⟩

/-- Pushing onto a renderer whose stack has top `c` appends the
composite `c.pre_concat T`. -/
theorem push_transform_state (r : SkiaRenderer) (st : SkiaState) (c T : M44)
    (h : r.state = some st) (hlast : st.transform_stack.getLast? = some c) :
    (r.push_transform T).state =
      some { st with transform_stack := st.transform_stack ++ [c.pre_concat T] } := by
  unfold SkiaRenderer.push_transform
  simp only [h, hlast, Option.getD_some]

/-- One step of `push_many`. -/
theorem push_many_cons (r : SkiaRenderer) (t : M44) (ts : List M44) :
    r.push_many (t :: ts) = (r.push_transform t).push_many ts := rfl

/-- Model of `mulChain` has the same length as its input. -/
theorem mulChain_length (c : M44) (ts : List M44) :
    (mulChain c ts).length = ts.length := by
  induction ts generalizing c with
  | nil => rfl
  | cons t ts ih => simp [mulChain, ih]

/-- The last element of a nonempty `mulChain` is the left fold of the
pushed transforms over the starting top. -/
theorem mulChain_getLast (c : M44) (ts : List M44) (h : ts ≠ []) :
    (mulChain c ts).getLast? =
      some (ts.foldl (fun acc t => acc.pre_concat t) c) := by
  induction ts generalizing c with
  | nil => exact absurd rfl h
  | cons t ts ih =>
    cases ts with
    | nil => rfl
    | cons t' ts' =>
      have h1 : mulChain c (t :: t' :: ts') =
          (c.pre_concat t) :: ((c.pre_concat t).pre_concat t') ::
            mulChain ((c.pre_concat t).pre_concat t') ts' := rfl
      have h2 : ((c.pre_concat t).pre_concat t') ::
          mulChain ((c.pre_concat t).pre_concat t') ts' =
            mulChain (c.pre_concat t) (t' :: ts') := rfl
      rw [h1, List.getLast?_cons_cons, h2, ih (c.pre_concat t) (by simp)]
      rfl

/-- After pushing `ts` above a stack with top `c`, the stack is the
old stack extended by the chain of composites. -/
theorem push_many_state (ts : List M44) (r : SkiaRenderer) (st : SkiaState) (c : M44)
    (h : r.state = some st) (hlast : st.transform_stack.getLast? = some c) :
    (r.push_many ts).state =
      some { st with transform_stack := st.transform_stack ++ mulChain c ts } := by
  induction ts generalizing r st c with
  | nil => simpa [SkiaRenderer.push_many, mulChain] using h
  | cons t ts ih =>
    rw [push_many_cons]
    have hpush := push_transform_state r st c t h hlast
    have hlast' : ({ st with transform_stack :=
        st.transform_stack ++ [c.pre_concat t] } : SkiaState).transform_stack.getLast? =
          some (c.pre_concat t) := by
      simp [List.getLast?_concat]
    have hrec := ih (r.push_transform t) _ (c.pre_concat t) hpush hlast'
    rw [hrec]
    simp [mulChain, List.append_assoc]

/-- Popping as many times as a stack extension above the base returns
the stack to the singleton base. -/
theorem pop_many_to_base (l : List M44) (r : SkiaRenderer) (st : SkiaState) (a : M44)
    (h : r.state = some st) (hstack : st.transform_stack = a :: l) :
    (r.pop_many l.length).state = some { st with transform_stack := [a] } := by
  induction l using List.reverseRecOn generalizing r st with
  | nil =>
    rw [show (([] : List M44)).length = 0 from rfl]
    show r.state = _
    rw [h, ← hstack]
  | append_singleton l x ih =>
    have hpop : (r.pop_transform).state =
        some { st with transform_stack := a :: l } := by
      unfold SkiaRenderer.pop_transform
      simp only [h]
      rw [if_pos (by simp [hstack])]
      have hdrop : (a :: (l ++ [x])).dropLast = a :: l := by
        rw [← List.cons_append, List.dropLast_concat]
      rw [hstack, hdrop]
    have hlen : (l ++ [x]).length = l.length + 1 := by simp
    rw [hlen]
    exact ih (r.pop_transform) ({ st with transform_stack := a :: l }) hpop rfl

/-- C5: starting from a freshly initialized stack, pushing `T1..Tn`
leaves the composite (identity folded with the transforms in push
order) on top, and popping `n` times returns to depth 1 with the
identity on top. -/
theorem C5_transform_composition (r : SkiaRenderer) (st : SkiaState) (ts : List M44)
    (h : r.state = some st) (hstack : st.transform_stack = [M44.new_identity]) :
    (r.push_many ts).current_transform =
      ts.foldl (fun acc t => acc.pre_concat t) M44.new_identity ∧
    ∃ st', ((r.push_many ts).pop_many ts.length).state = some st' ∧
      st'.transform_stack = [M44.new_identity] ∧
      ((r.push_many ts).pop_many ts.length).current_transform = M44.new_identity := by
  have hlast : st.transform_stack.getLast? = some M44.new_identity := by
    rw [hstack]; rfl
  have hpush := push_many_state ts r st M44.new_identity h hlast
  constructor
  · unfold SkiaRenderer.current_transform
    rw [hpush]
    cases ts with
    | nil => simp [mulChain, hstack]
    | cons t ts' =>
      have hne : mulChain M44.new_identity (t :: ts') ≠ [] := by
        intro hcontra
        have := mulChain_length M44.new_identity (t :: ts')
        rw [hcontra] at this
        simp at this
      show ((st.transform_stack ++
        mulChain M44.new_identity (t :: ts')).getLast?).getD M44.new_identity = _
      rw [List.getLast?_append_of_ne_nil _ hne,
        mulChain_getLast M44.new_identity (t :: ts') (by simp)]
      rfl
  · have hstack' : ({ st with transform_stack :=
        st.transform_stack ++ mulChain M44.new_identity ts } : SkiaState).transform_stack =
          M44.new_identity :: mulChain M44.new_identity ts := by
      show st.transform_stack ++ mulChain M44.new_identity ts = _
      rw [hstack]
      rfl
    have hlen : ts.length = (mulChain M44.new_identity ts).length :=
      (mulChain_length M44.new_identity ts).symm
    rw [hlen]
    have hpop := pop_many_to_base (mulChain M44.new_identity ts) (r.push_many ts) _
      M44.new_identity hpush hstack'
    refine ⟨_, hpop, rfl, ?_⟩
    unfold SkiaRenderer.current_transform
    rw [hpop]
    rfl

/-- Witness for C5 at a freshly initialized renderer and a singleton
sequence of pushes. -/
theorem C5_transform_composition_witness :
    (testRenderer.push_many [M44.new_identity]).current_transform =
      ([M44.new_identity].foldl (fun acc t => acc.pre_concat t) M44.new_identity) ∧
    ∃ st', ((testRenderer.push_many [M44.new_identity]).pop_many
        ([M44.new_identity] : List M44).length).state = some st' ∧
      st'.transform_stack = [M44.new_identity] ∧
      ((testRenderer.push_many [M44.new_identity]).pop_many
        ([M44.new_identity] : List M44).length).current_transform = M44.new_identity :=
  C5_transform_composition testRenderer testState [M44.new_identity] rfl rfl

/-- C6: `cleanup` always succeeds and leaves the state absent, and
`flush` on an absent state (in particular right after `cleanup`) is a
successful no-op. -/
theorem C6_cleanup_then_flush (r : SkiaRenderer) :
    r.cleanup = (⟨none⟩, Except.ok ()) ∧
    (r.cleanup).1.flush = ((r.cleanup).1, Except.ok ()) ∧
    (r.state = none → r.flush = (r, Except.ok ())) := by
  refine ⟨rfl, rfl, fun h => ?_⟩
  unfold SkiaRenderer.flush
  rw [h]

/-- Witness for C6 at a freshly constructed renderer. -/
theorem C6_cleanup_then_flush_witness :
    SkiaRenderer.new.cleanup = (⟨none⟩, Except.ok ()) ∧
    SkiaRenderer.new.flush = (SkiaRenderer.new, Except.ok ()) :=
  ⟨(C6_cleanup_then_flush SkiaRenderer.new).1,
   (C6_cleanup_then_flush SkiaRenderer.new).2.2 rfl⟩

/-- C7: `init` on an already-initialized renderer does nothing and
returns success. -/
theorem C7_init_idempotent (env : GlEnv) (r : SkiaRenderer) (st : SkiaState)
    (h : r.state = some st) : r.init env = (r, Except.ok ()) := by
  unfold SkiaRenderer.init
  simp [h]

/-- Witness for C7 at a concrete initialized renderer. -/
theorem C7_init_idempotent_witness :
    testRenderer.init envAllOk = (testRenderer, Except.ok ()) :=
  C7_init_idempotent envAllOk testRenderer testState rfl

/-- C9: every `RendererError` variant displays as its kind tag
followed by its carried message, and both a plain string and an I/O
error convert to `GeneralError` carrying the original text. -/
theorem C9_error_conversions (msg : String) (e : IoError) :
    (RendererError.SkiaError msg).display = "Skia error: " ++ msg ∧
    (RendererError.GlError msg).display = "OpenGL error: " ++ msg ∧
    (RendererError.InitError msg).display = "Initialization error: " ++ msg ∧
    (RendererError.GeneralError msg).display = "Renderer error: " ++ msg ∧
    RendererError.from_string msg = RendererError.GeneralError msg ∧
    RendererError.from_io_error e = RendererError.GeneralError e.message :=
  ⟨rfl, rfl, rfl, rfl, rfl, rfl⟩

/-- Doubling bounds for sine with nonnegative sine and cosine
bounds. -/
theorem sin_double_of_pos (x ls us lc uc : ℝ) (hs1 : ls ≤ Real.sin x)
    (hs2 : Real.sin x ≤ us) (hc1 : lc ≤ Real.cos x) (hc2 : Real.cos x ≤ uc)
    (h0s : 0 ≤ ls) (h0c : 0 ≤ lc) :
    2*ls*lc ≤ Real.sin (2*x) ∧ Real.sin (2*x) ≤ 2*us*uc := by
  rw [Real.sin_two_mul]
  constructor <;> nlinarith [mul_nonneg h0s h0c]

/-- Doubling bounds for sine with nonnegative sine bounds and
nonpositive cosine bounds. -/
theorem sin_double_of_mixed (x ls us lc uc : ℝ) (hs1 : ls ≤ Real.sin x)
    (hs2 : Real.sin x ≤ us) (hc1 : lc ≤ Real.cos x) (hc2 : Real.cos x ≤ uc)
    (h0s : 0 ≤ ls) (h0c : uc ≤ 0) :
    2*us*lc ≤ Real.sin (2*x) ∧ Real.sin (2*x) ≤ 2*ls*uc := by
  rw [Real.sin_two_mul]
  constructor <;> nlinarith [mul_nonneg h0s (neg_nonneg.mpr h0c)]

/-- Doubling bounds for cosine, via `cos (2x) = 1 - 2 sin² x`. -/
theorem cos_double_of_sin (x ls us : ℝ) (hs1 : ls ≤ Real.sin x)
    (hs2 : Real.sin x ≤ us) (h0s : 0 ≤ ls) :
    1 - 2*us^2 ≤ Real.cos (2*x) ∧ Real.cos (2*x) ≤ 1 - 2*ls^2 := by
  have e : Real.cos (2*x) = 1 - 2 * Real.sin x ^ 2 := by
    have h1 := Real.cos_two_mul' x
    have h2 := Real.sin_sq_add_cos_sq x
    nlinarith [h1, h2]
  rw [e]
  constructor <;> nlinarith

/-- Taylor bounds at 1/8 for sine. -/
theorem sin_eighth_bounds :
    (0.124661 : ℝ) ≤ Real.sin (1/8) ∧ Real.sin (1/8) ≤ 0.124688 := by
  have h := Real.sin_bound (x := 1/8) (by rw [abs_of_nonneg] <;> norm_num)
  rw [abs_le, abs_of_nonneg (by norm_num : (0:ℝ) ≤ 1/8)] at h
  constructor <;> nlinarith [h.1, h.2]

/-- Taylor bounds at 1/8 for cosine. -/
theorem cos_eighth_bounds :
    (0.992174 : ℝ) ≤ Real.cos (1/8) ∧ Real.cos (1/8) ≤ 0.992201 := by
  have h := Real.cos_bound (x := 1/8) (by rw [abs_of_nonneg] <;> norm_num)
  rw [abs_le, abs_of_nonneg (by norm_num : (0:ℝ) ≤ 1/8)] at h
  constructor <;> nlinarith [h.1, h.2]

/-- Bounds for sine at 1/4. -/
theorem sin_quarter_bounds :
    (0.24737 : ℝ) ≤ Real.sin (1/4) ∧ Real.sin (1/4) ≤ 0.24744 := by
  have h := sin_double_of_pos (1/8) 0.124661 0.124688 0.992174 0.992201
    sin_eighth_bounds.1 sin_eighth_bounds.2 cos_eighth_bounds.1 cos_eighth_bounds.2
    (by norm_num) (by norm_num)
  rw [show (2 * (1/8 : ℝ)) = 1/4 by norm_num] at h
  constructor <;> nlinarith [h.1, h.2]

/-- Bounds for cosine at 1/4. -/
theorem cos_quarter_bounds :
    (0.968905 : ℝ) ≤ Real.cos (1/4) ∧ Real.cos (1/4) ≤ 0.96892 := by
  have h := cos_double_of_sin (1/8) 0.124661 0.124688
    sin_eighth_bounds.1 sin_eighth_bounds.2 (by norm_num)
  rw [show (2 * (1/8 : ℝ)) = 1/4 by norm_num] at h
  constructor <;> nlinarith [h.1, h.2]

/-- Bounds for sine at 1/2. -/
theorem sin_half_bounds :
    (0.479355 : ℝ) ≤ Real.sin (1/2) ∧ Real.sin (1/2) ≤ 0.4795 := by
  have h := sin_double_of_pos (1/4) 0.24737 0.24744 0.968905 0.96892
    sin_quarter_bounds.1 sin_quarter_bounds.2 cos_quarter_bounds.1 cos_quarter_bounds.2
    (by norm_num) (by norm_num)
  rw [show (2 * (1/4 : ℝ)) = 1/2 by norm_num] at h
  constructor <;> nlinarith [h.1, h.2]

/-- Bounds for cosine at 1/2. -/
theorem cos_half_bounds :
    (0.877546 : ℝ) ≤ Real.cos (1/2) ∧ Real.cos (1/2) ≤ 0.877617 := by
  have h := cos_double_of_sin (1/4) 0.24737 0.24744
    sin_quarter_bounds.1 sin_quarter_bounds.2 (by norm_num)
  rw [show (2 * (1/4 : ℝ)) = 1/2 by norm_num] at h
  constructor <;> nlinarith [h.1, h.2]

/-- Bounds for sine at 1. -/
theorem sin_one_bounds :
    (0.841312 : ℝ) ≤ Real.sin 1 ∧ Real.sin 1 ≤ 0.841635 := by
  have h := sin_double_of_pos (1/2) 0.479355 0.4795 0.877546 0.877617
    sin_half_bounds.1 sin_half_bounds.2 cos_half_bounds.1 cos_half_bounds.2
    (by norm_num) (by norm_num)
  rw [show (2 * (1/2 : ℝ)) = 1 by norm_num] at h
  constructor <;> nlinarith [h.1, h.2]

/-- Bounds for cosine at 1. -/
theorem cos_one_bounds :
    (0.540159 : ℝ) ≤ Real.cos 1 ∧ Real.cos 1 ≤ 0.540438 := by
  have h := cos_double_of_sin (1/2) 0.479355 0.4795
    sin_half_bounds.1 sin_half_bounds.2 (by norm_num)
  rw [show (2 * (1/2 : ℝ)) = 1 by norm_num] at h
  constructor <;> nlinarith [h.1, h.2]

/-- Bounds for sine at 2. -/
theorem sin_two_bounds :
    (0.908884 : ℝ) ≤ Real.sin 2 ∧ Real.sin 2 ≤ 0.909704 := by
  have h := sin_double_of_pos 1 0.841312 0.841635 0.540159 0.540438
    sin_one_bounds.1 sin_one_bounds.2 cos_one_bounds.1 cos_one_bounds.2
    (by norm_num) (by norm_num)
  rw [show (2 * (1 : ℝ)) = 2 by norm_num] at h
  constructor <;> nlinarith [h.1, h.2]

/-- Bounds for cosine at 2. -/
theorem cos_two_bounds :
    (-0.4167 : ℝ) ≤ Real.cos 2 ∧ Real.cos 2 ≤ -0.415611 := by
  have h := cos_double_of_sin 1 0.841312 0.841635
    sin_one_bounds.1 sin_one_bounds.2 (by norm_num)
  rw [show (2 * (1 : ℝ)) = 2 by norm_num] at h
  constructor <;> nlinarith [h.1, h.2]

/-- Bounds for sine at 4. -/
theorem sin_four_bounds :
    (-0.758148 : ℝ) ≤ Real.sin 4 ∧ Real.sin 4 ≤ -0.755484 := by
  have h := sin_double_of_mixed 2 0.908884 0.909704 (-0.4167) (-0.415611)
    sin_two_bounds.1 sin_two_bounds.2 cos_two_bounds.1 cos_two_bounds.2
    (by norm_num) (by norm_num)
  rw [show (2 * (2 : ℝ)) = 4 by norm_num] at h
  constructor <;> nlinarith [h.1, h.2]

/-- C8 counterexample: at time 0 the red channel is exactly 0.5; the
code's byte conversion truncates 0.5 * 255 = 127.5 to 127, whereas
the claimed rounding would give 128. -/
theorem C8_byte_not_rounded :
    rChannel 0 = 1/2 ∧
    floatToU8 (rChannel 0 * 255) = 127 ∧
    round (rChannel 0 * 255) = 128 := by
  have h : rChannel 0 = 1/2 := by
    unfold rChannel
    rw [Real.sin_zero]
    norm_num
  refine ⟨h, ?_, ?_⟩
  · unfold floatToU8
    rw [h]
    norm_num [Int.floor_eq_iff]
    rfl
  · rw [h, round_eq]
    norm_num [Int.floor_eq_iff]

/-- C8 (amended): `draw_animated_circle` on an initialized renderer
first clears to white and then draws the fixed circle at (200, 200)
with radius 100, in the color with alpha 255 whose channels are
`sin(time + phase) * 0.5 + 0.5` for phases 0, 2, 4, each mapped to a
byte by saturating truncation of `channel * 255`; at time 0 the
channels are exactly 0.5 for red, within 1/500 of 0.955 for green and
within 1/500 of 0.122 for blue. -/
theorem C8_animated_circle_color (time : ℝ) (r : SkiaRenderer) (st : SkiaState)
    (h : r.state = some st) :
    (∃ st', (r.draw_animated_circle time).state = some st' ∧
      st'.surface.cmds = st.surface.cmds ++
        [DrawCmd.clear Color.white,
         DrawCmd.drawCircle 200 200 100
           ⟨.byteColor (animColor time), true, .fill⟩] ∧
      st'.width = st.width ∧ st'.height = st.height ∧
      st'.transform_stack = st.transform_stack) ∧
    animColor time = Color.from_argb 255 (floatToU8 (rChannel time * 255))
      (floatToU8 (gChannel time * 255)) (floatToU8 (bChannel time * 255)) ∧
    rChannel time = Real.sin time * 0.5 + 0.5 ∧
    gChannel time = Real.sin (time + 2) * 0.5 + 0.5 ∧
    bChannel time = Real.sin (time + 4) * 0.5 + 0.5 ∧
    rChannel 0 = 1/2 ∧
    |gChannel 0 - 0.955| < 1/500 ∧
    |bChannel 0 - 0.122| < 1/500 := by
  refine ⟨?_, rfl, rfl, rfl, rfl, ?_, ?_, ?_⟩
  · unfold SkiaRenderer.draw_animated_circle
    simp only [h]
    exact ⟨_, rfl, by simp [Surface.clear, Surface.draw_circle, Paint.new,
      Paint.set_anti_alias, Paint.set_color, List.append_assoc], rfl, rfl, rfl⟩
  · unfold rChannel
    rw [Real.sin_zero]
    norm_num
  · have hg : gChannel 0 = Real.sin 2 * 0.5 + 0.5 := by
      unfold gChannel
      norm_num
    rw [hg, abs_lt]
    constructor <;> nlinarith [sin_two_bounds.1, sin_two_bounds.2]
  · have hb : bChannel 0 = Real.sin 4 * 0.5 + 0.5 := by
      unfold bChannel
      norm_num
    rw [hb, abs_lt]
    constructor <;> nlinarith [sin_four_bounds.1, sin_four_bounds.2]

/-- Witness for the amended C8 at a concrete initialized renderer and
time 0. -/
theorem C8_animated_circle_color_witness :
    (∃ st', (testRenderer.draw_animated_circle 0).state = some st' ∧
      st'.surface.cmds = testState.surface.cmds ++
        [DrawCmd.clear Color.white,
         DrawCmd.drawCircle 200 200 100
           ⟨.byteColor (animColor 0), true, .fill⟩] ∧
      st'.width = testState.width ∧ st'.height = testState.height ∧
      st'.transform_stack = testState.transform_stack) ∧
    animColor 0 = Color.from_argb 255 (floatToU8 (rChannel 0 * 255))
      (floatToU8 (gChannel 0 * 255)) (floatToU8 (bChannel 0 * 255)) ∧
    rChannel 0 = Real.sin 0 * 0.5 + 0.5 ∧
    gChannel 0 = Real.sin (0 + 2) * 0.5 + 0.5 ∧
    bChannel 0 = Real.sin (0 + 4) * 0.5 + 0.5 ∧
    rChannel 0 = 1/2 ∧
    |gChannel 0 - 0.955| < 1/500 ∧
    |bChannel 0 - 0.122| < 1/500 :=
  C8_animated_circle_color 0 testRenderer testState rfl

/-- C10: with the state absent, `draw_animated_circle` is a silent
no-op (it cannot even return an error), while `draw_test_circle`
fails with the "Renderer not initialized" `GeneralError`. -/
theorem C10_animated_circle_absent_noop (time : ℝ) (r : SkiaRenderer)
    (h : r.state = none) :
    r.draw_animated_circle time = r ∧
    r.draw_test_circle =
      (r, Except.error (RendererError.GeneralError "Renderer not initialized")) := by
  constructor
  · unfold SkiaRenderer.draw_animated_circle; rw [h]
  · unfold SkiaRenderer.draw_test_circle; rw [h]

/-- Witness for C10 at a freshly constructed renderer and time 0. -/
theorem C10_animated_circle_absent_noop_witness :
    SkiaRenderer.new.draw_animated_circle 0 = SkiaRenderer.new ∧
    SkiaRenderer.new.draw_test_circle =
      (SkiaRenderer.new,
        Except.error (RendererError.GeneralError "Renderer not initialized")) :=
  C10_animated_circle_absent_noop 0 SkiaRenderer.new rfl

end Orbit
